import Mathlib

/-!
Verification of the multi-provider document discovery and retrieval
pipeline of the palladium_research repository.  Python sources are
shallowly embedded: strings are modelled as `List Char`, network and
file-system effects as explicit outcome data passed to the embedded
functions, and Python exceptions as `Except` values, following each
source function statement by statement.
-/

namespace Palladium

/-- Lowercasing of a URL string, modelling Python `url.lower()` on the
ASCII range used by the URL heuristics of `src/main.py`. -/
def lowerChars (s : String) : List Char := s.data.map Char.toLower

/-- Substring occurrence test on character lists. -/
def infixAt (pat : List Char) : List Char → Bool
  | [] => pat.isEmpty
  | c :: rest => pat.isPrefixOf (c :: rest) || infixAt pat rest

/-- Python `pat in s` substring test on a character list. -/
def containsSub (s : List Char) (pat : String) : Bool := infixAt pat.data s

/-- Python `s.endswith(suf)` on a character list. -/
def endsWithSub (s : List Char) (suf : String) : Bool := suf.data.isSuffixOf s

/-- Allow-list of PDF-serving host/path substrings from
`src/main.py` lines 101-111 (`pdf_hosts`). -/
def pdf_hosts : List String :=
  ["europepmc.org/articles/", "arxiv.org/pdf/", "biorxiv.org/content/",
   "researchgate.net/profile/", "pubs.rsc.org/en/content/articlepdf",
   "acs.org/doi/pdf", "nature.com/articles/", "science.org/doi/pdf",
   "cell.com/action/showPdf"]

/-- Deny-list of identifier-resolution host substrings from
`src/main.py` lines 118-126 (`non_pdf_patterns`). -/
def non_pdf_patterns : List String :=
  ["doi.org/", "dx.doi.org/", "handle.net/", "openalex.org/",
   "semanticscholar.org/", "pubmed.ncbi.nlm.nih.gov/", "crossref.org/"]

/-- `is_pdf_url` from `src/main.py` lines 77-132: ordered heuristic
deciding whether a URL is a direct PDF link. -/
def is_pdf_url (url : String) : Bool :=
  if url.data = [] then false
  else
    let url_lower := lowerChars url
    if endsWithSub url_lower ".pdf" then true
    else if containsSub url_lower "pdf" &&
      (containsSub url_lower "render" || containsSub url_lower "download" ||
       containsSub url_lower "view") then true
    else if pdf_hosts.any (fun h => containsSub url_lower h) then true
    else if non_pdf_patterns.any (fun p => containsSub url_lower p) then false
    else false

/-- The three classes distinguished by the PDF link classifier of the
specification (section 4.2). -/
inductive UrlClass where
  | Direct
  | LandingPage
  | Unknown
deriving DecidableEq

/-- Refinement of `is_pdf_url`, labelling its exit points: the three
`return True` sites are `Direct`, the deny-list `return False` site is
`LandingPage`, and the two fall-through `return False` sites (empty URL
and no heuristic match) are `Unknown`.  Same conditions, same order as
`src/main.py` lines 77-132. -/
def classifyUrl (url : String) : UrlClass :=
  if url.data = [] then .Unknown
  else
    let url_lower := lowerChars url
    if endsWithSub url_lower ".pdf" then .Direct
    else if containsSub url_lower "pdf" &&
      (containsSub url_lower "render" || containsSub url_lower "download" ||
       containsSub url_lower "view") then .Direct
    else if pdf_hosts.any (fun h => containsSub url_lower h) then .Direct
    else if non_pdf_patterns.any (fun p => containsSub url_lower p) then .LandingPage
    else .Unknown

/-- Query truncation of the Web-Search Adapter, from
`src/retrievers/yandex_search.py` line 30 and `src/utils/yandex_search.py`
line 30: `self.query = query if len(query)<400 else query[:400]`. -/
def truncateQuery (q : List Char) : List Char :=
  if q.length < 400 then q else q.take 400

/-- One raw OpenAlex work as it flows through the dedup loop of
`search_openalex` (`src/retrievers/openalex.py` lines 62-66):
`id` models `work.get("id")` (absent key gives `none`), `tag`
distinguishes otherwise different records. -/
structure Work where
  id : Option String
  tag : Nat
deriving DecidableEq

/-- The dedup loop body of `search_openalex`
(`src/retrievers/openalex.py` lines 61-66): `seen` is `seen_ids`,
`acc` is `all_results`; a work is appended only when its id is truthy
(present and non-empty) and unseen. -/
def dedupWorksGo (seen : List String) (acc : List Work) : List Work → List Work
  | [] => acc
  | w :: rest =>
    match w.id with
    | none => dedupWorksGo seen acc rest
    | some s =>
      if s ≠ "" ∧ s ∉ seen then dedupWorksGo (s :: seen) (acc ++ [w]) rest
      else dedupWorksGo seen acc rest

/-- Deduplication of the full stream of works returned by the paged
OpenAlex search, starting from an empty `seen_ids` set as in
`src/retrievers/openalex.py` lines 33-34. -/
def search_openalex_dedup (works : List Work) : List Work :=
  dedupWorksGo [] [] works

/-- Outcome of one `requests.get(..., stream=True)` download attempt in
`download_pdf_from_url` (`src/retrievers/openalex.py` lines 99-135):
the request can fail with a non-2xx status (`raise_for_status`), fail at
the network level, or deliver a chunked body whose iteration either
completes or raises after `k` chunks were already written. -/
inductive FetchOutcome where
  | httpError
  | networkError
  | stream (chunks : List (List Nat)) (failAfter : Option Nat)

/-- Result of `download_pdf_from_url`: the returned boolean, the content
at the destination path afterwards (`none` when no file exists), and the
`stat().st_size` value read on success. -/
structure FetchResult where
  ok : Bool
  file : Option (List Nat)
  size : Option Nat
deriving DecidableEq

/-- `download_pdf_from_url` from `src/retrievers/openalex.py` lines
99-135.  `initial` is the destination content before the call.  A
request-level failure is caught before `open(filepath, 'wb')` runs, so
the file system is untouched; once streaming starts the file holds the
chunks written so far, and the `except` clauses do not delete it; on
success the recorded size is the size of the written file. -/
def download_pdf_from_url (o : FetchOutcome) (initial : Option (List Nat)) :
    FetchResult :=
  match o with
  | .httpError => ⟨false, initial, none⟩
  | .networkError => ⟨false, initial, none⟩
  | .stream chunks none =>
    ⟨true, some chunks.flatten, some chunks.flatten.length⟩
  | .stream chunks (some k) =>
    ⟨false, some ((chunks.take k).flatten), none⟩

/-- The fixed mirror list of `search_with_direct_url`
(`src/sci_hub.py` lines 42-47). -/
def sci_hub_mirrors : List String :=
  ["https://sci-hub.ru", "https://sci-hub.st", "https://sci-hub.se",
   "https://sci-hub.ren"]

/-- Post-processing of one regex match inside
`extract_pdf_link_from_html` (`src/sci_hub.py` lines 29-35):
`startswith('http')` returns the match, `'//'` gets `https:` prepended,
`'/'` gets the base URL prepended, anything else is skipped. -/
def processPatternMatch (base : String) (m : List Char) : Option (List Char) :=
  if "http".data.isPrefixOf m then some m
  else if "//".data.isPrefixOf m then some ("https:".data ++ m)
  else if "/".data.isPrefixOf m then some (base.data ++ m)
  else none

/-- Inner loop of `extract_pdf_link_from_html` over the matches of one
pattern: the first match of an accepted shape is returned, other
matches are skipped. -/
def firstAbsolute (base : String) : List (List Char) → Option (List Char)
  | [] => none
  | m :: rest =>
    match processPatternMatch base m with
    | some u => some u
    | none => firstAbsolute base rest

/-- `extract_pdf_link_from_html` from `src/sci_hub.py` lines 18-37, with
the regex engine abstracted: `matchLists` is the list of
`re.findall(pattern, html_content)` results for the four patterns, in
pattern order.  Patterns are tried in order and the first accepted
match wins; if no pattern yields an accepted match the function
returns `None`. -/
def extract_pdf_link_from_html (base : String)
    (matchLists : List (List (List Char))) : Option (List Char) :=
  match matchLists with
  | [] => none
  | ms :: rest =>
    match firstAbsolute base ms with
    | some u => some u
    | none => extract_pdf_link_from_html base rest

/-- Outcome of `requests.get(f"{mirror}/{doi}", ...)` for one mirror
inside `search_with_direct_url`: either an exception (caught by the
per-mirror `except`), or a response with a status code and the regex
match lists of its HTML body. -/
inductive MirrorResp where
  | exc
  | reply (status : Nat) (matchLists : List (List (List Char)))

/-- The success dictionary built by `search_with_direct_url`
(`src/sci_hub.py` lines 57-63). -/
structure MirrorHit where
  doi : String
  pdf_url : List Char
  status : String
  method : String
  mirror : String
deriving DecidableEq

/-- One iteration of the mirror loop of `search_with_direct_url`
(`src/sci_hub.py` lines 49-66): an exception or a non-200 status or a
body without an accepted PDF link moves on; a 200 body with an
extracted link returns the success dictionary. -/
def tryMirror (doi : String) (env : String → MirrorResp) (m : String) :
    Option MirrorHit :=
  match env m with
  | .exc => none
  | .reply status mls =>
    if status = 200 then
      match extract_pdf_link_from_html m mls with
      | some link => some ⟨doi, link, "success", "direct_url", m⟩
      | none => none
    else none

/-- The mirror loop of `search_with_direct_url`, instrumented with the
list of mirrors attempted (in order) before the loop returned. -/
def searchMirrorsGo (doi : String) (env : String → MirrorResp) :
    List String → List String × Option MirrorHit
  | [] => ([], none)
  | m :: rest =>
    match tryMirror doi env m with
    | some hit => ([m], some hit)
    | none =>
      let r := searchMirrorsGo doi env rest
      (m :: r.1, r.2)

/-- `search_with_direct_url` from `src/sci_hub.py` lines 40-68: iterate
the fixed mirror list, return the first success, `None` when all
mirrors are exhausted. -/
def search_with_direct_url (doi : String) (env : String → MirrorResp) :
    List String × Option MirrorHit :=
  searchMirrorsGo doi env sci_hub_mirrors

/-- Outcome of the primary `self.scihub.fetch(doi)` call in
`SciHubSearcher.search_paper_by_doi`: a result dictionary with a PDF
URL, or an exception (any exception is caught by the method). -/
inductive PrimaryFetch where
  | ok (url : List Char)
  | exc

/-- The dictionary returned by `SciHubSearcher.search_paper_by_doi`:
optional fields are absent in the `not_found` dictionary. -/
structure SciHubResult where
  doi : String
  status : String
  pdf_url : Option (List Char)
  mirror : Option String
  method : Option String
deriving DecidableEq

/-- `SciHubSearcher.search_paper_by_doi` from `src/sci_hub.py` lines
81-103: primary fetch first; on exception the backup
`search_with_direct_url` runs; when the backup also finds nothing the
method returns `{'doi': doi, 'status': 'not_found'}`. -/
def search_paper_by_doi (doi : String) (primary : PrimaryFetch)
    (env : String → MirrorResp) : SciHubResult :=
  match primary with
  | .ok url => ⟨doi, "success", some url, none, some "standard"⟩
  | .exc =>
    match (search_with_direct_url doi env).2 with
    | some hit =>
      ⟨hit.doi, hit.status, some hit.pdf_url, some hit.mirror, some hit.method⟩
    | none => ⟨doi, "not_found", none, none, none⟩

/-- One raw OpenAlex hit as handled by `search_by_exact_title`; only its
identity matters to the fallback-order claim, the field extraction into
`article_info` is shared with `search_article_link` and not modelled
here. -/
structure ArticleHit where
  tag : Nat
deriving DecidableEq

/-- The three-stage query cascade of `search_by_exact_title`
(`src/main.py` lines 409-426), with the provider abstracted: `s1` is
the result list of the structured `title.search` filter, `s2` of the
quoted free-text search, `s3` of the plain free-text search.  The
instrumentation records which stages were consulted, and the returned
hit is `results[0]` of the first non-empty stage. -/
def search_by_exact_title (s1 s2 s3 : List ArticleHit) :
    List Nat × Option ArticleHit :=
  if s1 ≠ [] then ([1], s1.head?)
  else if s2 ≠ [] then ([1, 2], s2.head?)
  else if s3 ≠ [] then ([1, 2, 3], s3.head?)
  else ([1, 2, 3], none)

/-- Digit-string evaluation: `some` of the value when the list is a
non-empty run of ASCII digits, `none` otherwise. -/
def digitsVal (l : List Char) : Option Nat :=
  if l = [] then none
  else if l.all Char.isDigit then
    some (l.foldl (fun n c => 10 * n + (c.toNat - 48)) 0)
  else none

/-- Python `int(s)` on the strings reaching the date-parsing code:
surrounding whitespace is stripped, an optional sign precedes a
non-empty digit run; anything else raises `ValueError`, modelled as
`none`.  (Underscore digit grouping is not modelled; no date string
contains it.) -/
def pyInt (s : List Char) : Option Int :=
  let t := ((s.dropWhile Char.isWhitespace).reverse.dropWhile
    Char.isWhitespace).reverse
  match t with
  | '-' :: ds => (digitsVal ds).map (fun n => -(n : Int))
  | '+' :: ds => (digitsVal ds).map (fun n => (n : Int))
  | ds => (digitsVal ds).map (fun n => (n : Int))

/-- The publication-date parsing block of `search_article_link`
(`src/main.py` lines 169-184, repeated verbatim in
`search_multiple_articles` and `search_by_exact_title`): split the
string on `-`; `int(date_parts[1])` assigns the month, then
`int(date_parts[2])` assigns the day; a `ValueError`/`IndexError`
is caught and leaves the fields already assigned as they are.
Returns the final `(publication_month, publication_day)` pair. -/
def parsePubDateFields (pd : Option (List Char)) : Option Int × Option Int :=
  match pd with
  | none => (none, none)
  | some s =>
    if s = [] then (none, none)
    else
      let parts := s.splitOn '-'
      if parts.length ≥ 2 then
        match pyInt (parts.getD 1 []) with
        | none => (none, none)
        | some m =>
          if parts.length ≥ 3 then
            match pyInt (parts.getD 2 []) with
            | none => (some m, none)
            | some d => (some m, some d)
          else (some m, none)
      else (none, none)

/-- Predicate written from the claim wording, for comparison with the
code: the date string has the form `YYYY-MM-DD` with integer
components (three all-digit fields of widths 4, 2, 2). -/
def specFormYMD (s : List Char) : Bool :=
  match s.splitOn '-' with
  | [y, m, d] =>
    y.length == 4 && m.length == 2 && d.length == 2 &&
    y.all Char.isDigit && m.all Char.isDigit && d.all Char.isDigit
  | _ => false

/-- Shape of a successful Yandex Search response body, with JSON,
base64 and XML decoding abstracted: `rawData` present and decodable
(pre-parsed snippet texts), `rawData` present but undecodable, a JSON
envelope with `result.items`, a JSON envelope without `result`, or an
unparseable body. -/
inductive YPayload where
  | rawXml (snips : List String)
  | rawBad
  | jsonItems (items : List String)
  | jsonNoResult
  | invalidJson

/-- Outcome of one `requests.post` attempt inside
`YandexSearch.extract_yandex_snippets`
(`src/retrievers/yandex_search.py` lines 62-80): a connection error or
timeout (retried), an HTTP error from `raise_for_status` (raised
immediately), or a successful response carrying a payload. -/
inductive YAttempt where
  | connFail
  | httpFail (code : Nat)
  | ok (p : YPayload)

/-- The retry loop of `extract_yandex_snippets`
(`src/retrievers/yandex_search.py` lines 62-80): `i` is the current
attempt index, `remaining` the retries left (`2 - i` for
`range(3)`); a connection error or timeout with a retry left moves to
the next attempt, with none left it raises; an HTTP error raises at
once. -/
def yandexRequestGo (attempts : Nat → YAttempt) : Nat → Nat → Except String YPayload
  | i, 0 =>
    match attempts i with
    | .ok p => .ok p
    | .httpFail code => .error ("HTTP " ++ toString code)
    | .connFail => .error "Сбой после 3 попыток"
  | i, r + 1 =>
    match attempts i with
    | .ok p => .ok p
    | .httpFail code => .error ("HTTP " ++ toString code)
    | .connFail => yandexRequestGo attempts (i + 1) r

/-- The full three-attempt loop, `for attempt in range(3)`. -/
def yandexRequestLoop (attempts : Nat → YAttempt) : Except String YPayload :=
  yandexRequestGo attempts 0 2

/-- `YandexSearch.extract_yandex_snippets` from
`src/retrievers/yandex_search.py` lines 40-127: run the retry loop,
then decode the payload; decode failures and unexpected structures
raise, otherwise the first `max_results` snippets (or items) are
returned. -/
def extract_yandex_snippets (attempts : Nat → YAttempt) (maxResults : Nat) :
    Except String (List String) :=
  match yandexRequestLoop attempts with
  | .error e => .error e
  | .ok p =>
    match p with
    | .rawXml snips => .ok (snips.take maxResults)
    | .rawBad => .error "Ошибка декодирования rawData"
    | .invalidJson => .error "Невалидный JSON"
    | .jsonItems items => .ok (items.take maxResults)
    | .jsonNoResult => .error "Неожиданная структура ответа"

/-- Environment of one question processed by `download_relevant_pdfs`
(`src/utils/difficult_question_processing.py` lines 59-84):
`keywords` is the outcome of the LLM keyword step (lines 60-77; an
exception from `serp_chain.invoke` propagates, the `split` update is
guarded by `try`), and `attempts` drives this question's Yandex
snippet request. -/
structure QuestionEnv where
  keywords : Except String (List String)
  attempts : Nat → YAttempt

/-- Python `set.update`: add the elements not yet present. -/
def unionList (acc xs : List String) : List String :=
  xs.foldl (fun a x => if x ∈ a then a else a ++ [x]) acc

/-- The filter `len(x.split(" "))>1` of
`src/utils/difficult_question_processing.py` line 88. -/
def multiword (s : String) : Bool := (s.splitOn " ").length > 1

/-- The per-question loop of `download_relevant_pdfs`
(`src/utils/difficult_question_processing.py` lines 59-84): the
keyword step and the snippet fetch run outside any `try`, so an
exception from either terminates the loop; successful snippets are
accumulated into the run-wide `chunks` set. -/
def questionLoop (questions : List QuestionEnv) (kwAcc chAcc : List String) :
    Except String (List String × List String) :=
  match questions with
  | [] => .ok (kwAcc, chAcc)
  | q :: rest =>
    match q.keywords with
    | .error e => .error e
    | .ok kws =>
      match extract_yandex_snippets q.attempts 1 with
      | .error e => .error e
      | .ok snips =>
        questionLoop rest (unionList kwAcc kws) (unionList chAcc snips)

/-- The exception raised by every keyword-stage call of the
orchestrator: the call sites
(`src/utils/difficult_question_processing.py` lines 97 and 105) pass
the keyword arguments `article_name` (and `seen_titles`), but the only
definition of `extract_openalex_pdfs`
(`src/retrievers/openalex.py` line 137) is
`def extract_openalex_pdfs(query, max_results=10)`, so Python raises
TypeError while binding the arguments, before the function body runs. -/
def openalexCallTypeError : String :=
  "TypeError: unexpected keyword argument article_name"

/-- The keyword loop of `download_relevant_pdfs`
(`src/utils/difficult_question_processing.py` lines 95-97),
instrumented with the list of output paths written so far.  Each
iteration calls `extract_openalex_pdfs(keyword, article_name=...,
seen_titles=...)`; argument binding raises TypeError before the
function body opens any file, so the first iteration aborts the loop
having written nothing. -/
def openalexKeywordLoop (written : List (List Char)) :
    List String → List (List Char) × Except String Unit
  | [] => (written, .ok ())
  | _ :: _ => (written, .error openalexCallTypeError)

/-- The translated-keyword loop
(`src/utils/difficult_question_processing.py` lines 102-105): the
guard `if translated_keyword and translated_keyword.strip()` skips
falsy or all-whitespace keywords; a kept keyword is passed to
`extract_openalex_pdfs(translated_keyword, article_name=article_name)`,
which raises the same TypeError before writing anything. -/
def openalexTranslatedLoop (written : List (List Char)) :
    List String → List (List Char) × Except String Unit
  | [] => (written, .ok ())
  | kw :: rest =>
    if kw.data.any (fun c => !c.isWhitespace) then
      (written, .error openalexCallTypeError)
    else openalexTranslatedLoop written rest

/-- `download_relevant_pdfs` from
`src/utils/difficult_question_processing.py` lines 45-107:
after the question loop, keep multi-word keywords plus "палладий",
translate them (`translate_keywords`, whose exception would also
propagate — modelled by `translateResult`), then run the keyword loop
and the translated-keyword loop.  Returns the output paths written by
the keyword stage together with the outcome: the returned value
`(chunks, all_keywords)` of line 107, or the first exception.  Since
"палладий" is appended unconditionally, the keyword loop always has a
first iteration, whose call raises TypeError. -/
def download_relevant_pdfs (questions : List QuestionEnv)
    (translateResult : Except String (List String)) :
    List (List Char) × Except String (List String × List String) :=
  match questionLoop questions [] [] with
  | .error e => ([], .error e)
  | .ok (kws, chunks) =>
    let allKeywords := kws.filter multiword ++ ["палладий"]
    match translateResult with
    | .error e => ([], .error e)
    | .ok translated =>
      match openalexKeywordLoop [] (allKeywords ++ translated) with
      | (written, .error e) => (written, .error e)
      | (written, .ok _) =>
        match openalexTranslatedLoop written translated with
        | (written2, .error e) => (written2, .error e)
        | (written2, .ok _) => (written2, .ok (chunks, allKeywords))

/-- Character class `\w` of the sanitizing regexes in
`extract_openalex_pdfs` (`src/retrievers/openalex.py` line 198) and
`extract_serpapi_pdfs` (`src/retrievers/_serpapi.py` line 82), for the
ASCII range. -/
def isWordChar (c : Char) : Bool := c.isAlphanum || c == '_'

/-- Character class `[-\s]` of the second sanitizing regex. -/
def isSpaceDash (c : Char) : Bool := c.isWhitespace || c == '-'

/-- Python `s.strip()`: drop whitespace at both ends. -/
def stripSpaces (l : List Char) : List Char :=
  ((l.dropWhile Char.isWhitespace).reverse.dropWhile Char.isWhitespace).reverse

/-- Worker for `collapseRuns`: `inRun` remembers whether the previous
character belonged to a space/dash run already replaced by `_`. -/
def collapseGo (inRun : Bool) : List Char → List Char
  | [] => []
  | c :: rest =>
    if isSpaceDash c then
      if inRun then collapseGo true rest else '_' :: collapseGo true rest
    else c :: collapseGo false rest

/-- Python `re.sub(r'[-\s]+', '_', s)`: every maximal run of spaces and
dashes becomes a single underscore. -/
def collapseRuns (l : List Char) : List Char := collapseGo false l

/-- The filename slug of `extract_openalex_pdfs`
(`src/retrievers/openalex.py` lines 198-199): strip non-word
non-space non-dash characters, strip surrounding whitespace, collapse
space/dash runs to underscores, truncate to 100 characters. -/
def safe_filename (title : List Char) : List Char :=
  (collapseRuns (stripSpaces
    (title.filter (fun c => isWordChar c || c.isWhitespace || c == '-')))).take 100

/-- ASCII digit character for a value below ten. -/
def digitChar (n : Nat) : Char := Char.ofNat (48 + n)

/-- Decimal digit expansion with explicit fuel (the fuel only bounds
the recursion depth; `n` itself is always enough fuel). -/
def natDigitsGo : Nat → Nat → List Char
  | 0, n => [digitChar n]
  | fuel + 1, n =>
    if n < 10 then [digitChar n]
    else natDigitsGo fuel (n / 10) ++ [digitChar (n % 10)]

/-- Decimal digit expansion of a natural number. -/
def natDigits (n : Nat) : List Char := natDigitsGo n n

/-- Python `f"{i:02d}"` for a non-negative ordinal. -/
def pad02 (i : Nat) : List Char :=
  if i < 10 then '0' :: natDigits i else natDigits i

/-- The filename `f"{i:02d}_{safe_filename}.pdf"` built by
`extract_openalex_pdfs` (`src/retrievers/openalex.py` line 200) for
the `i`-th search result. -/
def pdfFilename (i : Nat) (title : List Char) : List Char :=
  pad02 i ++ '_' :: safe_filename title ++ ".pdf".data

/-- C4: the PDF link classifier is a pure function of the URL; its
boolean form `is_pdf_url` holds exactly on the `Direct` class of the
exit-labelled `classifyUrl`, and on the three specification examples
the classes are `Direct` for the arXiv PDF path, `LandingPage`
(non-downloadable) for the DOI resolver, and `Unknown`
(non-downloadable) for the plain article page. -/
theorem is_pdf_url_classification :
    (∀ url : String, is_pdf_url url = true ↔ classifyUrl url = UrlClass.Direct) ∧
    classifyUrl "https://arxiv.org/pdf/1234.5678" = UrlClass.Direct ∧
    classifyUrl "https://doi.org/10.1/xyz" = UrlClass.LandingPage ∧
    classifyUrl "https://example.com/article/123" = UrlClass.Unknown := by
  refine ⟨fun url => ?_, by decide, by decide, by decide⟩
  unfold is_pdf_url classifyUrl
  by_cases h0 : url.data = [] <;>
  by_cases h1 : endsWithSub (lowerChars url) ".pdf" = true <;>
  by_cases h2 : (containsSub (lowerChars url) "pdf" &&
    (containsSub (lowerChars url) "render" ||
     containsSub (lowerChars url) "download" ||
     containsSub (lowerChars url) "view")) = true <;>
  by_cases h3 : pdf_hosts.any (fun h => containsSub (lowerChars url) h) = true <;>
  by_cases h4 : non_pdf_patterns.any (fun p => containsSub (lowerChars url) p) = true <;>
  simp [h0, h1, h2, h3, h4]

/-- C5: the Web-Search Adapter stores exactly the first 400 characters
of the query (the whole query when shorter), so the transmitted query
never exceeds 400 characters; a 1000-character query becomes exactly
its 400-character prefix. -/
theorem yandex_query_truncated (q : List Char) :
    truncateQuery q = q.take 400 ∧
    (truncateQuery q).length = min 400 q.length ∧
    truncateQuery (List.replicate 1000 'a') = List.replicate 400 'a' := by
  refine ⟨?_, ?_, ?_⟩
  · unfold truncateQuery
    split
    · next h => exact (List.take_of_length_le (by omega)).symm
    · rfl
  · unfold truncateQuery
    split
    · next h => simp; omega
    · simp [List.length_take]
  · unfold truncateQuery
    rw [List.length_replicate, if_neg (by omega), List.take_replicate,
      min_eq_left (by norm_num)]

/-- C3: the dedup loop of `search_openalex` keeps only the first-seen
record per identifier: for records `a`, `b` sharing id `X` and `c`
with id `Y`, every permutation yields exactly the first-seen record
for `X` followed by (or preceded by, per insertion order) the record
for `Y` — a collection of size 2. -/
theorem openalex_dedup_first_seen (a b c : Work) (X Y : String)
    (ha : a.id = some X) (hb : b.id = some X) (hc : c.id = some Y)
    (hX : X ≠ "") (hY : Y ≠ "") (hXY : X ≠ Y) :
    search_openalex_dedup [a, b, c] = [a, c] ∧
    search_openalex_dedup [a, c, b] = [a, c] ∧
    search_openalex_dedup [b, a, c] = [b, c] ∧
    search_openalex_dedup [b, c, a] = [b, c] ∧
    search_openalex_dedup [c, a, b] = [c, a] ∧
    search_openalex_dedup [c, b, a] = [c, b] := by
  have hYX : Y ≠ X := fun h => hXY h.symm
  refine ⟨?_, ?_, ?_, ?_, ?_, ?_⟩ <;>
    simp [search_openalex_dedup, dedupWorksGo, ha, hb, hc, hX, hY, hXY, hYX]

/-- C3 witness: concrete records with OpenAlex-style ids. -/
theorem openalex_dedup_first_seen_witness :
    search_openalex_dedup
      [⟨some "https://openalex.org/W1", 0⟩, ⟨some "https://openalex.org/W1", 1⟩,
       ⟨some "https://openalex.org/W2", 2⟩] =
      [⟨some "https://openalex.org/W1", 0⟩, ⟨some "https://openalex.org/W2", 2⟩] :=
  (openalex_dedup_first_seen ⟨some "https://openalex.org/W1", 0⟩
    ⟨some "https://openalex.org/W1", 1⟩ ⟨some "https://openalex.org/W2", 2⟩
    "https://openalex.org/W1" "https://openalex.org/W2"
    rfl rfl rfl (by decide) (by decide) (by decide)).1

/-- C1 counterexample: a download whose body iteration raises after
one chunk was written returns `False`, yet the destination file still
exists with the partial content — `download_pdf_from_url` has no
cleanup of partially written files on its failure paths. -/
theorem download_pdf_partial_file_remains :
    (download_pdf_from_url (.stream [[1, 2], [3, 4]] (some 1)) none).ok = false ∧
    (download_pdf_from_url (.stream [[1, 2], [3, 4]] (some 1)) none).file =
      some [1, 2] ∧
    (download_pdf_from_url (.stream [[1, 2], [3, 4]] (some 1)) none).file ≠
      none := by
  refine ⟨rfl, rfl, by decide⟩

/-- C1 (amended): when `download_pdf_from_url` fails before the body
stream is opened (HTTP status or network error), the destination is
untouched and in particular still absent; when it fails while
streaming, the partially written file remains on disk, its content a
proper state of the interrupted stream (a prefix of the full body);
on success the recorded size equals the size of the file on disk. -/
theorem download_pdf_fetch_contract (o : FetchOutcome) :
    ((o = .httpError ∨ o = .networkError) →
      (download_pdf_from_url o none).ok = false ∧
      (download_pdf_from_url o none).file = none) ∧
    (∀ chunks k, o = .stream chunks (some k) →
      (download_pdf_from_url o none).ok = false ∧
      ∃ part, (download_pdf_from_url o none).file = some part ∧
        part <+: chunks.flatten) ∧
    (∀ chunks, o = .stream chunks none →
      (download_pdf_from_url o none).ok = true ∧
      ∃ content, (download_pdf_from_url o none).file = some content ∧
        (download_pdf_from_url o none).size = some content.length) := by
  refine ⟨?_, ?_, ?_⟩
  · rintro (rfl | rfl) <;> exact ⟨rfl, rfl⟩
  · rintro chunks k rfl
    refine ⟨rfl, (chunks.take k).flatten, rfl,
      ⟨(chunks.drop k).flatten, ?_⟩⟩
    rw [← List.flatten_append, List.take_append_drop]
  · rintro chunks rfl
    exact ⟨rfl, chunks.flatten, rfl, rfl⟩

/-- C1 witness: a request-level failure leaves no file behind. -/
theorem download_pdf_fetch_contract_witness :
    (download_pdf_from_url .httpError none).ok = false ∧
    (download_pdf_from_url .httpError none).file = none :=
  (download_pdf_fetch_contract .httpError).1 (Or.inl rfl)

/-- C8 counterexample: `"2020-05-ab"` is not of the form `YYYY-MM-DD`
with integer components, yet the parsed record carries
`publication_month = 5` — the month was assigned before
`int(date_parts[2])` raised, so the record does not degrade to
year-only with both month and day unset. -/
theorem date_parse_partial_degrade :
    specFormYMD "2020-05-ab".data = false ∧
    parsePubDateFields (some "2020-05-ab".data) = (some 5, none) ∧
    (parsePubDateFields (some "2020-05-ab".data)).1 ≠ none := by
  refine ⟨by decide, by decide, by decide⟩

/-- C8 (amended): date parsing is a total function (exceptions are
caught, never propagated); when the month component fails to parse as
an integer both month and day stay unset, and when the month parses
but the day component fails only the day stays unset — the already
assigned month is kept. -/
theorem date_parse_degradation (s : List Char) :
    (s ≠ [] → (s.splitOn '-').length ≥ 2 →
      pyInt ((s.splitOn '-').getD 1 []) = none →
      parsePubDateFields (some s) = (none, none)) ∧
    (∀ m : Int, s ≠ [] → (s.splitOn '-').length ≥ 3 →
      pyInt ((s.splitOn '-').getD 1 []) = some m →
      pyInt ((s.splitOn '-').getD 2 []) = none →
      parsePubDateFields (some s) = (some m, none)) := by
  constructor
  · intro hne h2 hm
    simp only [List.getD_eq_getElem?_getD] at hm
    unfold parsePubDateFields
    simp [hne, h2, hm]
  · intro m hne h3 hm hd
    simp only [List.getD_eq_getElem?_getD] at hm hd
    have h2 : (s.splitOn '-').length ≥ 2 := by omega
    unfold parsePubDateFields
    simp [hne, h2, h3, hm, hd]

/-- C8 witness: month parsed, day malformed, month kept. -/
theorem date_parse_degradation_witness :
    parsePubDateFields (some "2021-11-xx".data) = (some 11, none) :=
  (date_parse_degradation "2021-11-xx".data).2 11 (by decide) (by decide)
    (by decide) (by decide)

/-- C7: `search_by_exact_title` consults the structured title filter,
the quoted search, and the plain search in that order, returns the
first non-empty stage's first hit, and consults a later stage only
when every earlier stage returned an empty result set. -/
theorem exact_title_stage_order (s1 s2 s3 : List ArticleHit) :
    (s1 ≠ [] → search_by_exact_title s1 s2 s3 = ([1], s1.head?)) ∧
    (s1 = [] → s2 ≠ [] → search_by_exact_title s1 s2 s3 = ([1, 2], s2.head?)) ∧
    (s1 = [] → s2 = [] → s3 ≠ [] →
      search_by_exact_title s1 s2 s3 = ([1, 2, 3], s3.head?)) ∧
    (2 ∈ (search_by_exact_title s1 s2 s3).1 → s1 = []) ∧
    (3 ∈ (search_by_exact_title s1 s2 s3).1 → s1 = [] ∧ s2 = []) := by
  unfold search_by_exact_title
  split_ifs with h1 h2 h3 <;> simp_all

/-- C7 witness: first stage empty, second stage non-empty. -/
theorem exact_title_stage_order_witness :
    search_by_exact_title [] [⟨5⟩] [⟨9⟩] = ([1, 2], some ⟨5⟩) :=
  (exact_title_stage_order [] [⟨5⟩] [⟨9⟩]).2.1 rfl (by decide)

/-- Every hit produced by a mirror attempt carries status `success`. -/
theorem tryMirror_status (doi : String) (env : String → MirrorResp) (m : String)
    (hit : MirrorHit) (h : tryMirror doi env m = some hit) :
    hit.status = "success" := by
  unfold tryMirror at h
  cases he : env m with
  | exc => rw [he] at h; simp at h
  | reply status mls =>
    rw [he] at h
    dsimp only at h
    by_cases h200 : status = 200
    · rw [if_pos h200] at h
      cases hx : extract_pdf_link_from_html m mls with
      | none => rw [hx] at h; simp at h
      | some link =>
        rw [hx] at h
        simp only [Option.some.injEq] at h
        rw [← h]
    · rw [if_neg h200] at h; simp at h

/-- Every hit produced by the mirror loop carries status `success`. -/
theorem searchMirrorsGo_status (doi : String) (env : String → MirrorResp) :
    ∀ (l : List String) (hit : MirrorHit),
      (searchMirrorsGo doi env l).2 = some hit → hit.status = "success" := by
  intro l
  induction l with
  | nil => intro hit h; simp [searchMirrorsGo] at h
  | cons m rest ih =>
    intro hit h
    unfold searchMirrorsGo at h
    cases ht : tryMirror doi env m with
    | some hit0 =>
      rw [ht] at h
      simp only [Option.some.injEq] at h
      exact h ▸ tryMirror_status doi env m hit0 ht
    | none =>
      rw [ht] at h
      exact ih hit h

/-- C6: when the primary resolution raises and the first two mirrors
fail while the third yields a PDF link, the mirror loop attempts the
mirrors in list order, stops at the third, and
`search_paper_by_doi` returns that mirror's URL; when every mirror
fails the method returns the `not_found` dictionary; and for every
outcome the method returns a dictionary whose status is `success` or
`not_found` — it never raises. -/
theorem scihub_mirror_fallback (doi : String) (env : String → MirrorResp) :
    (∀ hit : MirrorHit,
      tryMirror doi env "https://sci-hub.ru" = none →
      tryMirror doi env "https://sci-hub.st" = none →
      tryMirror doi env "https://sci-hub.se" = some hit →
      search_with_direct_url doi env =
        (["https://sci-hub.ru", "https://sci-hub.st", "https://sci-hub.se"],
          some hit) ∧
      search_paper_by_doi doi .exc env =
        ⟨hit.doi, hit.status, some hit.pdf_url, some hit.mirror,
          some hit.method⟩) ∧
    ((∀ m ∈ sci_hub_mirrors, tryMirror doi env m = none) →
      search_paper_by_doi doi .exc env = ⟨doi, "not_found", none, none, none⟩) ∧
    (∀ primary : PrimaryFetch,
      (search_paper_by_doi doi primary env).status = "success" ∨
      (search_paper_by_doi doi primary env).status = "not_found") := by
  refine ⟨?_, ?_, ?_⟩
  · intro hit h1 h2 h3
    have hs : search_with_direct_url doi env =
        (["https://sci-hub.ru", "https://sci-hub.st", "https://sci-hub.se"],
          some hit) := by
      simp [search_with_direct_url, sci_hub_mirrors, searchMirrorsGo, h1, h2, h3]
    refine ⟨hs, ?_⟩
    simp [search_paper_by_doi, hs]
  · intro hall
    have h1 := hall "https://sci-hub.ru" (by simp [sci_hub_mirrors])
    have h2 := hall "https://sci-hub.st" (by simp [sci_hub_mirrors])
    have h3 := hall "https://sci-hub.se" (by simp [sci_hub_mirrors])
    have h4 := hall "https://sci-hub.ren" (by simp [sci_hub_mirrors])
    simp [search_paper_by_doi, search_with_direct_url, sci_hub_mirrors,
      searchMirrorsGo, h1, h2, h3, h4]
  · intro primary
    cases primary with
    | ok url => left; rfl
    | exc =>
      cases h : (search_with_direct_url doi env).2 with
      | none => right; simp [search_paper_by_doi, h]
      | some hit =>
        left
        have hst := searchMirrorsGo_status doi env sci_hub_mirrors hit h
        simp [search_paper_by_doi, h, hst]

/-- C6 witness: an environment where the first two mirrors raise and
the third serves a page with a bare absolute PDF URL. -/
theorem scihub_mirror_fallback_witness :
    search_with_direct_url "10.1/x"
      (fun m => if m = "https://sci-hub.se"
        then MirrorResp.reply 200 [[], [], [], ["https://se.example/paper.pdf".data]]
        else MirrorResp.exc) =
      (["https://sci-hub.ru", "https://sci-hub.st", "https://sci-hub.se"],
        some ⟨"10.1/x", "https://se.example/paper.pdf".data, "success",
          "direct_url", "https://sci-hub.se"⟩) := by
  exact ((scihub_mirror_fallback "10.1/x" _).1 _
    (by decide) (by decide) (by decide)).1

/-- A first accepted match comes from some match of the pattern. -/
theorem firstAbsolute_mem (base : String) :
    ∀ (ms : List (List Char)) (u : List Char),
      firstAbsolute base ms = some u →
      ∃ m ∈ ms, processPatternMatch base m = some u := by
  intro ms
  induction ms with
  | nil => intro u h; simp [firstAbsolute] at h
  | cons m rest ih =>
    intro u h
    unfold firstAbsolute at h
    cases hp : processPatternMatch base m with
    | some v =>
      rw [hp] at h
      simp only [Option.some.injEq] at h
      exact ⟨m, by simp, h ▸ hp⟩
    | none =>
      rw [hp] at h
      obtain ⟨m0, hm0, hp0⟩ := ih u h
      exact ⟨m0, by simp [hm0], hp0⟩

/-- A returned link comes from some match of some pattern. -/
theorem extract_link_mem (base : String) :
    ∀ (mls : List (List (List Char))) (u : List Char),
      extract_pdf_link_from_html base mls = some u →
      ∃ ms ∈ mls, ∃ m ∈ ms, processPatternMatch base m = some u := by
  intro mls
  induction mls with
  | nil => intro u h; simp [extract_pdf_link_from_html] at h
  | cons ms rest ih =>
    intro u h
    unfold extract_pdf_link_from_html at h
    cases hf : firstAbsolute base ms with
    | some v =>
      rw [hf] at h
      simp only [Option.some.injEq] at h
      exact ⟨ms, by simp, firstAbsolute_mem base ms u (h ▸ hf)⟩
    | none =>
      rw [hf] at h
      obtain ⟨ms0, hms0, hrest⟩ := ih u h
      exact ⟨ms0, by simp [hms0], hrest⟩

/-- An accepted match yields a URL starting with `http` whenever the
base URL does. -/
theorem processPatternMatch_http (base : String) (m u : List Char)
    (hbase : "http".data.isPrefixOf base.data = true)
    (h : processPatternMatch base m = some u) :
    "http".data.isPrefixOf u = true := by
  unfold processPatternMatch at h
  split_ifs at h with hh hss hs
  · rw [← Option.some.inj h]; exact hh
  · rw [← Option.some.inj h, List.isPrefixOf_iff_prefix]
    exact List.IsPrefix.trans (by decide) (List.prefix_append _ _)
  · rw [← Option.some.inj h, List.isPrefixOf_iff_prefix]
    exact List.IsPrefix.trans (List.isPrefixOf_iff_prefix.mp hbase)
      (List.prefix_append _ _)

/-- C10 counterexample: with a base URL not beginning with `http` (the
claim quantifies over every base URL), a root-relative match — as
produced for the HTML `<a href="/paper.pdf">` by the second pattern —
is returned with the base prepended, so the returned URL does not
begin with `http`. -/
theorem extract_pdf_link_ftp_base :
    extract_pdf_link_from_html "ftp://mirror.example"
      [[], ["/paper.pdf".data], [], []] =
      some "ftp://mirror.example/paper.pdf".data ∧
    "http".data.isPrefixOf "ftp://mirror.example/paper.pdf".data = false := by
  exact ⟨by decide, by decide⟩

/-- C10 (amended): provided the base URL begins with `http`,
`extract_pdf_link_from_html` returns `None` or an absolute URL
beginning with `http`; a match beginning with `//` is returned with
`https:` prepended, a match beginning with `/` with the base URL
prepended, and matches of any other non-`http` shape are skipped. -/
theorem extract_pdf_link_shape (base : String) (mls : List (List (List Char))) :
    ("http".data.isPrefixOf base.data = true →
      ∀ u, extract_pdf_link_from_html base mls = some u →
        "http".data.isPrefixOf u = true) ∧
    (∀ m, "http".data.isPrefixOf m = true →
      processPatternMatch base m = some m) ∧
    (∀ m, "http".data.isPrefixOf m = false → "//".data.isPrefixOf m = true →
      processPatternMatch base m = some ("https:".data ++ m)) ∧
    (∀ m, "http".data.isPrefixOf m = false → "//".data.isPrefixOf m = false →
      "/".data.isPrefixOf m = true →
      processPatternMatch base m = some (base.data ++ m)) ∧
    (∀ m, "http".data.isPrefixOf m = false → "//".data.isPrefixOf m = false →
      "/".data.isPrefixOf m = false → processPatternMatch base m = none) := by
  refine ⟨?_, ?_, ?_, ?_, ?_⟩
  · intro hbase u hu
    obtain ⟨ms, -, m, -, hm⟩ := extract_link_mem base mls u hu
    exact processPatternMatch_http base m u hbase hm
  · intro m hm
    unfold processPatternMatch
    rw [if_pos hm]
  · intro m h1 h2
    unfold processPatternMatch
    rw [if_neg (by simp [h1]), if_pos h2]
  · intro m h1 h2 h3
    unfold processPatternMatch
    rw [if_neg (by simp [h1]), if_neg (by simp [h2]), if_pos h3]
  · intro m h1 h2 h3
    unfold processPatternMatch
    rw [if_neg (by simp [h1]), if_neg (by simp [h2]), if_neg (by simp [h3])]

/-- C10 witness: with an `https` mirror base, a root-relative match is
returned as an absolute `http`-prefixed URL. -/
theorem extract_pdf_link_shape_witness :
    "http".data.isPrefixOf "https://sci-hub.ru/dl/p.pdf".data = true :=
  (extract_pdf_link_shape "https://sci-hub.ru" [[], ["/dl/p.pdf".data], [], []]).1
    (by decide) "https://sci-hub.ru/dl/p.pdf".data (by decide)

/-- When every question's keyword step and snippet fetch succeed, the
question loop completes with a value. -/
theorem questionLoop_ok :
    ∀ (questions : List QuestionEnv) (kwAcc chAcc : List String),
      (∀ q ∈ questions, (∃ ks, q.keywords = Except.ok ks) ∧
        ∃ sn, extract_yandex_snippets q.attempts 1 = Except.ok sn) →
      ∃ out, questionLoop questions kwAcc chAcc = Except.ok out := by
  intro questions
  induction questions with
  | nil => intro kwAcc chAcc _; exact ⟨(kwAcc, chAcc), rfl⟩
  | cons q rest ih =>
    intro kwAcc chAcc hall
    obtain ⟨⟨ks, hks⟩, ⟨sn, hsn⟩⟩ := hall q (by simp)
    unfold questionLoop
    rw [hks, hsn]
    exact ih _ _ (fun q0 hq0 => hall q0 (by simp [hq0]))

/-- The keyword loop aborts with the TypeError at its first iteration
whenever the keyword list is non-empty — and it always is, since the
orchestrator appends "палладий" unconditionally (line 88). -/
theorem openalexKeywordLoop_nonempty (written : List (List Char))
    (l1 : List String) (kw : String) (l2 : List String) :
    openalexKeywordLoop written (l1 ++ kw :: l2) =
      (written, Except.error openalexCallTypeError) := by
  cases l1 <;> rfl

/-- C2 counterexample: a batch with one query whose three snippet
request attempts all hit connection errors — every provider call
raises — makes `download_relevant_pdfs` itself raise the
retry-exhaustion exception instead of completing with empty sets:
the snippet fetch is not guarded by any `try` in the question loop. -/
theorem orchestrator_batch_raises :
    (download_relevant_pdfs
      [⟨Except.ok ["difficult a", "b c"], fun _ => YAttempt.connFail⟩]
      (Except.error "translate failed")).2 =
      Except.error "Сбой после 3 попыток" := by
  rfl

/-- C2 (amended): an exception raised by any question's web-search
snippet fetch (retry exhaustion or an HTTP error) propagates out of
`download_relevant_pdfs` and terminates the batch; and no run ever
completes with the empty-but-valid sets either — when every question's
keyword step and snippet fetch succeed and translation succeeds, the
keyword loop raises TypeError at its first `extract_openalex_pdfs`
call, whose keyword arguments the function's definition rejects. -/
theorem orchestrator_error_propagation :
    (∀ (kws : List String) (att : Nat → YAttempt) (rest : List QuestionEnv)
      (tr : Except String (List String)) (e : String),
      extract_yandex_snippets att 1 = .error e →
      (download_relevant_pdfs (⟨.ok kws, att⟩ :: rest) tr).2 = .error e) ∧
    (∀ (questions : List QuestionEnv) (translated : List String),
      (∀ q ∈ questions, (∃ ks, q.keywords = Except.ok ks) ∧
        ∃ sn, extract_yandex_snippets q.attempts 1 = Except.ok sn) →
      (download_relevant_pdfs questions (.ok translated)).2 =
        .error openalexCallTypeError) := by
  constructor
  · intro kws att rest tr e he
    unfold download_relevant_pdfs questionLoop
    simp [he]
  · intro questions translated hall
    obtain ⟨⟨kws, chunks⟩, hq⟩ := questionLoop_ok questions [] [] hall
    unfold download_relevant_pdfs
    rw [hq]
    simp [openalexKeywordLoop_nonempty]

/-- C2 witness: a non-transient HTTP error on the first attempt also
terminates the batch at once. -/
theorem orchestrator_error_propagation_witness :
    (download_relevant_pdfs
      [⟨Except.ok ["k w"], fun _ => YAttempt.httpFail 403⟩]
      (Except.ok [])).2 = Except.error "HTTP 403" :=
  orchestrator_error_propagation.1 ["k w"] (fun _ => YAttempt.httpFail 403)
    [] (Except.ok []) "HTTP 403" (by rfl)

/-- Small digit expansions are single digit characters. -/
theorem natDigitsGo_lt_ten (fuel n : Nat) (h : n < 10) :
    natDigitsGo fuel n = [digitChar n] := by
  cases fuel with
  | zero => rfl
  | succ f => unfold natDigitsGo; rw [if_pos h]

/-- `f"{i:02d}"` is the two-digit decimal expansion for ordinals up to
99. -/
theorem pad02_two_digits (i : Nat) (h : i ≤ 99) :
    pad02 i = [digitChar (i / 10), digitChar (i % 10)] := by
  unfold pad02 natDigits
  by_cases h10 : i < 10
  · rw [if_pos h10, natDigitsGo_lt_ten i i h10,
      Nat.div_eq_of_lt h10, Nat.mod_eq_of_lt h10]
    rw [show '0' = digitChar 0 from by decide]
  · rw [if_neg h10]
    obtain ⟨f, rfl⟩ : ∃ f, i = f + 1 := ⟨i - 1, by omega⟩
    show natDigitsGo (f + 1) (f + 1) = _
    unfold natDigitsGo
    rw [if_neg h10, natDigitsGo_lt_ten _ _ (by omega)]
    rfl

/-- Digit characters of distinct digits are distinct. -/
theorem digitChar_inj (a b : Nat) (ha : a < 10) (hb : b < 10)
    (h : digitChar a = digitChar b) : a = b := by
  interval_cases a <;> interval_cases b <;> (revert h; decide)

/-- Supporting fact about the filename scheme of one
`extract_openalex_pdfs` call: the ordinal prefix `f"{i:02d}"` makes
filenames at distinct ordinals up to 99 distinct, whatever the
titles. -/
theorem openalex_filenames_unique_within_call (i j : Nat) (t1 t2 : List Char)
    (hi : i ≤ 99) (hj : j ≤ 99) (hij : i ≠ j) :
    pdfFilename i t1 ≠ pdfFilename j t2 := by
  intro h
  unfold pdfFilename at h
  rw [pad02_two_digits i hi, pad02_two_digits j hj] at h
  simp only [List.cons_append, List.nil_append, List.cons.injEq] at h
  obtain ⟨h1, h2, -⟩ := h
  have e1 := digitChar_inj _ _ (by omega) (by omega) h1
  have e2 := digitChar_inj _ _ (by omega) (by omega) h2
  omega

/-- Concrete instance of the ordinal-distinctness fact: distinct
ordinals, same title, distinct filenames. -/
theorem openalex_filenames_unique_within_call_witness :
    pdfFilename 1 "Catalyst A".data ≠ pdfFilename 2 "Catalyst A".data :=
  openalex_filenames_unique_within_call 1 2 "Catalyst A".data "Catalyst A".data
    (by decide) (by decide) (by decide)

/-- C9: no two downloads performed during one orchestrator run are
written to the same output path — vacuously so: the keyword stage of
every run raises TypeError at its first `extract_openalex_pdfs` call
(the call passes keyword arguments `article_name` and `seen_titles`
that `def extract_openalex_pdfs(query, max_results=10)` rejects, and
the keyword list is never empty because "палладий" is appended
unconditionally), before any file is written, so a run performs no
keyword-driven download at all: its written-path list is empty and
therefore duplicate-free. -/
theorem run_download_paths_unique (questions : List QuestionEnv)
    (translateResult : Except String (List String)) :
    (download_relevant_pdfs questions translateResult).1 = [] ∧
    (download_relevant_pdfs questions translateResult).1.Nodup := by
  have h1 : (download_relevant_pdfs questions translateResult).1 = [] := by
    unfold download_relevant_pdfs
    cases hq : questionLoop questions [] [] with
    | error e => rfl
    | ok pair =>
      obtain ⟨kws, chunks⟩ := pair
      cases translateResult with
      | error e => rfl
      | ok translated => simp [openalexKeywordLoop_nonempty]
  exact ⟨h1, h1 ▸ List.nodup_nil⟩

end Palladium
